import Mathlib

/-!
Verification of the QueryArc result renderer (`script.js`, with the
version-B renderer from `backup/script.js` where a property concerns it).

Modelling conventions, used throughout:
* A JavaScript number is modelled by `JsNum`: either `NaN` or an exact
  rational.  (Infinities do not arise in the rendered fields; the scores
  exercised by the specification are finite.)
* A field of the server's JSON document is `Option t`: `none` covers an
  absent field, `null`, `undefined`, or a value of the wrong type (the
  source guards these with `typeof x === "number"` / `Array.isArray`
  checks, which all collapse to the `Option` pattern match here).
* DOM elements written by the renderer are fields of explicit state
  records; `el.textContent = s` becomes a record update.  The defensive
  `if (!el) return` element-presence guards are elided: the page's
  elements are assumed present, as on the shipped page.
* The `async`/`await` control flow of `analyzeUrl` is embedded by
  passing in a `FetchOutcome` describing how the single awaited network
  interaction resolves, and threading an `AppState` through the
  `try`/`catch`/`finally` structure of the source.
-/

namespace QueryArc

/-- A JavaScript number: `NaN` or a finite value, modelled as an exact
rational. -/
inductive JsNum where
  | nan
  | val (q : ℚ)
deriving Repr, DecidableEq

namespace JsNum

/-- JS `isNaN(x)` on a number. -/
def isNaN : JsNum → Bool
  | nan => true
  | val _ => false

/-- JS truthiness of a number: `NaN` and `0` are falsy. -/
def truthy : JsNum → Bool
  | nan => false
  | val q => decide (q ≠ 0)

/-- JS `Math.max` on two numbers (`NaN` propagates). -/
def jsMax : JsNum → JsNum → JsNum
  | val a, val b => val (max a b)
  | _, _ => nan

/-- JS `Math.min` on two numbers (`NaN` propagates). -/
def jsMin : JsNum → JsNum → JsNum
  | val a, val b => val (min a b)
  | _, _ => nan

/-- JS multiplication on two numbers (`NaN` propagates). -/
def jsMul : JsNum → JsNum → JsNum
  | val a, val b => val (a * b)
  | _, _ => nan

/-- JS `x >= t` for a number `x` against a rational threshold `t`
(false when `x` is `NaN`). -/
def jsGe (x : JsNum) (t : ℚ) : Bool :=
  match x with
  | nan => false
  | val q => decide (t ≤ q)

end JsNum

/-- Integer part of a non-negative rational (its floor). -/
def ratIntPart (q : ℚ) : Nat := q.num.toNat / q.den

/-- Decimal digits of a fractional part `0 ≤ f < 1`, with fuel; stops at
an exact zero remainder, so trailing zeros are not produced. -/
def ratFracDigits : ℚ → Nat → String
  | _, 0 => ""
  | f, n + 1 =>
    if f = 0 then ""
    else
      let t := f * 10
      let d := ratIntPart t
      Nat.repr d ++ ratFracDigits (t - (d : ℚ)) n

/-- JS `Number.prototype.toString` on a finite number, modelled on exact
rationals: sign, integer part, and (when nonzero) the fractional digits.
The fuel 17 matches the maximal significant decimal length of a double's
shortest representation; every value the renderer stringifies this way in
the verified properties is an integer, where the model is exact. -/
def ratToString (q : ℚ) : String :=
  let sign := if q < 0 then "-" else ""
  let a : ℚ := |q|
  let ip := ratIntPart a
  let fs := ratFracDigits (a - (ip : ℚ)) 17
  sign ++ Nat.repr ip ++ (if fs = "" then "" else "." ++ fs)

/-- JS `Number.prototype.toFixed(1)` on a finite number: the nearest
multiple of 1/10 (ties away from zero on the magnitude, per the
ECMAScript algorithm), printed with exactly one fractional digit. -/
def ratToFixed1 (q : ℚ) : String :=
  let sign := if q < 0 then "-" else ""
  let n := ratIntPart (|q| * 10 + 1 / 2)
  sign ++ Nat.repr (n / 10) ++ "." ++ Nat.repr (n % 10)

/-- Drop leading whitespace characters from a character list. -/
def trimCharsLeft : List Char → List Char
  | [] => []
  | c :: cs => if c.isWhitespace then trimCharsLeft cs else c :: cs

/-- JS `String.prototype.trim`: strip whitespace from both ends.
(JS trims a slightly larger Unicode whitespace set than
`Char.isWhitespace`; the classes coincide on the ASCII whitespace the
verified properties exercise.) -/
def jsTrim (s : String) : String :=
  ⟨(trimCharsLeft (trimCharsLeft s.data).reverse).reverse⟩

/-- Template interpolation `${x}` of a number (JS `toString`). -/
def jsToString : JsNum → String
  | .nan => "NaN"
  | .val q => ratToString q

/-- JS `x.toFixed(1)` on a number. -/
def jsToFixed1 : JsNum → String
  | .nan => "NaN"
  | .val q => ratToFixed1 q

/-! ## Data model: the `AnalysisResult` JSON document (version-A schema,
as destructured by `script.js`). Every field is optional; `none` models
an absent / `null` / wrongly-typed field. -/

/-- `score_matrix`: the 0–100 overall score and the eight 0–10
sub-scores rendered as bars.  The JS field `structure` is a Lean
keyword and is embedded as `structureScore`. -/
structure ScoreMatrix where
  final_score : Option JsNum := none
  summary_block : Option JsNum := none
  definitions : Option JsNum := none
  faq : Option JsNum := none
  fanout_match : Option JsNum := none
  canonical_resources : Option JsNum := none
  structureScore : Option JsNum := none
  clarity : Option JsNum := none
  eeat : Option JsNum := none
deriving Repr, DecidableEq

/-- `clarity_readability`: AIO sub-score plus issue/fix lists. -/
structure ClarityBlock where
  score : Option JsNum := none
  issues : Option (List String) := none
  fixes : Option (List String) := none
deriving Repr, DecidableEq

/-- One recommended FAQ item (`{q, a}`). -/
structure FaqItem where
  q : String
  a : String
deriving Repr, DecidableEq

/-- `faq_block`: AEO sub-score plus the recommended FAQ list. -/
structure FaqBlock where
  score : Option JsNum := none
  recommended_faqs : Option (List FaqItem) := none
  quality : Option String := none
deriving Repr, DecidableEq

/-- `fanout_query_analysis`: GEO coverage score plus question lists. -/
structure FanoutBlock where
  coverage_score : Option JsNum := none
  sub_questions_generated : Option (List String) := none
  main_gaps : Option (List String) := none
deriving Repr, DecidableEq

/-- `executive_summary`. -/
structure ExecSummary where
  overall_llm_readiness_score : Option JsNum := none
  verdict : Option String := none
  main_issue : Option String := none
  top_3_fixes : Option (List String) := none
deriving Repr, DecidableEq

/-- `eeat_block`. -/
structure EeatBlock where
  score : Option JsNum := none
  author_info_found : Option Bool := none
  expertise_visibility : Option String := none
  experience_signals : Option String := none
  trust_signals : Option String := none
  missing_elements : Option (List String) := none
deriving Repr, DecidableEq

/-- `fix_roadmap`. -/
structure FixRoadmap where
  immediate_fixes_next_24h : Option (List String) := none
  medium_priority_next_7_days : Option (List String) := none
  long_term_next_30_days : Option (List String) := none
deriving Repr, DecidableEq

/-- `page_metadata`. -/
structure PageMetadata where
  url : Option String := none
deriving Repr, DecidableEq

/-- The whole version-A `AnalysisResult` document, with the fields
`renderResults` destructures. -/
structure AnalysisResult where
  page_metadata : Option PageMetadata := none
  executive_summary : Option ExecSummary := none
  llm_interpretation : Option Unit := none
  summary_block : Option Unit := none
  definitions_block : Option Unit := none
  faq_block : Option FaqBlock := none
  canonical_resources_block : Option Unit := none
  score_matrix : Option ScoreMatrix := none
  fanout_query_analysis : Option FanoutBlock := none
  clarity_readability : Option ClarityBlock := none
  eeat_block : Option EeatBlock := none
  fix_roadmap : Option FixRoadmap := none
deriving Repr, DecidableEq

/-! ## `renderArcRank` (script.js lines 119–151): the hero score and
the AIO/AEO/GEO sub-score texts, as a transformer of the four DOM
elements it writes. -/

/-- The text/title content of the four arc-rank DOM elements. -/
structure ArcDom where
  arcScoreText : String := ""
  aioText : String := ""
  aioTitle : String := ""
  aeoText : String := ""
  aeoTitle : String := ""
  geoText : String := ""
  geoTitle : String := ""
deriving Repr, DecidableEq

/-- `renderArcRank(scoreMatrix, clarityBlock, faqBlock, fanoutBlock)`.
Returns the updated element contents; when `scoreMatrix` is falsy the
source returns immediately and the elements are untouched. -/
def renderArcRank (scoreMatrix : Option ScoreMatrix)
    (clarityBlock : Option ClarityBlock) (faqBlock : Option FaqBlock)
    (fanoutBlock : Option FanoutBlock) (dom : ArcDom) : ArcDom :=
  match scoreMatrix with
  | none => dom
  | some sm =>
    let overall : JsNum := sm.final_score.getD (.val 0)
    let clarityAio : JsNum := (clarityBlock.bind fun c => c.score).getD (.val 0)
    let faqAeo : JsNum := (faqBlock.bind fun f => f.score).getD (.val 0)
    let fanoutGeo : JsNum := (fanoutBlock.bind fun f => f.coverage_score).getD (.val 0)
    { dom with
      arcScoreText := if overall.isNaN then "—" else jsToString overall
      aioText := if clarityAio.truthy then jsToFixed1 clarityAio else "—"
      aioTitle :=
        "AIO – AI Index Optimization: clarity and readability of your content for AI models."
      aeoText := if faqAeo.truthy then jsToFixed1 faqAeo else "—"
      aeoTitle :=
        "AEO – Answer Engine Optimization: how well your FAQs and answers cover user questions."
      geoText := if fanoutGeo.truthy then jsToFixed1 fanoutGeo else "—"
      geoTitle :=
        "GEO – Generative Engine Optimization: how much topical depth and coverage the page provides." }

/-! ## `renderEvaluation` (script.js lines 215–419): the evaluation
card.  The innerHTML assignment is embedded as a structured view of the
dynamic fragments the verified properties concern (verdict pill,
LLM-ready flag, score pills, score bars); the remaining fragments are
static text or list interpolations not touched by any property. -/

/-- One rendered score-bar row: its label/help-title, the raw numeric
value, the bar fill width in percent, and the printed value text. -/
structure ScoreBar where
  label : String
  title : String
  value : JsNum
  widthPct : JsNum
  valueText : String
deriving Repr, DecidableEq

/-- The row-rendering lambda of the score-bars template (identical in
`script.js` and `backup/script.js`):
`pct = Math.min(10, Math.max(0, value)) * 10` and
`value.toFixed(1)` as the printed text. -/
def scoreBarRow (label : String) (value : JsNum) (title : String) : ScoreBar :=
  { label := label
    title := title
    value := value
    widthPct := JsNum.jsMul (JsNum.jsMin (JsNum.val 10) (JsNum.jsMax (JsNum.val 0) value)) (JsNum.val 10)
    valueText := jsToFixed1 value }

/-- The `scoreRows.map(...)` loop over `[label, value, help]` rows: a
row whose value is not a number (`typeof value !== "number"`) renders
nothing; every other row renders a `scoreBarRow`. -/
def renderScoreRows (rows : List (String × Option JsNum × String)) : List ScoreBar :=
  rows.filterMap fun r =>
    match r.2.1 with
    | some v => some (scoreBarRow r.1 v r.2.2)
    | none => none

/-- The context object literal `renderResults` passes to
`renderEvaluation`. -/
structure EvalCtx where
  page_metadata : Option PageMetadata := none
  executive_summary : Option ExecSummary := none
  score_matrix : Option ScoreMatrix := none
  fanout_query_analysis : Option FanoutBlock := none
  clarity_readability : Option ClarityBlock := none
  eeat_block : Option EeatBlock := none
  fix_roadmap : Option FixRoadmap := none
deriving Repr, DecidableEq

/-- The dynamic fragments of the evaluation card's innerHTML. -/
structure EvalView where
  verdictClass : String
  verdictText : String
  llmReadyText : String
  overallPillText : String
  fanoutPillText : String
  eeatPillText : String
  scoreBars : List ScoreBar
deriving Repr, DecidableEq

/-- The destructured `final_score = 0` default:
`(ctx.score_matrix || defaults).final_score`, `0` when absent. -/
def effFinalScore (sm : Option ScoreMatrix) : JsNum :=
  (sm.getD {}).final_score.getD (.val 0)

/-- `renderEvaluation(ctx)` (script.js lines 215–419). -/
def renderEvaluation (ctx : EvalCtx) : EvalView :=
  let es := ctx.executive_summary.getD {}
  let sm := ctx.score_matrix.getD {}
  let fanout := ctx.fanout_query_analysis.getD {}
  let eeatB := ctx.eeat_block.getD {}
  let verdict := es.verdict.getD ""
  let final_score := sm.final_score.getD (.val 0)
  let coverage_score := fanout.coverage_score.getD (.val 0)
  let eeat_score := eeatB.score.getD (.val 0)
  let scoreRows : List (String × Option JsNum × String) :=
    [("Summary block", some (sm.summary_block.getD (.val 0)),
        "Quality of the LLM summary block for quick retrieval."),
     ("Definitions", some (sm.definitions.getD (.val 0)),
        "Coverage and clarity of key term definitions."),
     ("FAQ", some (sm.faq.getD (.val 0)),
        "How well FAQs cover real user questions."),
     ("Fanout coverage", some (sm.fanout_match.getD (.val 0)),
        "How well content answers the model's sub-questions."),
     ("Canonical resources", some (sm.canonical_resources.getD (.val 0)),
        "Internal + external anchors for context."),
     ("Structure", some (sm.structureScore.getD (.val 0)),
        "Heading hierarchy and section layout."),
     ("Clarity / readability", some (sm.clarity.getD (.val 0)),
        "Language clarity, flow, and examples."),
     ("EEAT", some (sm.eeat.getD (.val 0)),
        "Expertise, experience, authority, and trust signals.")]
  { verdictClass :=
      if verdict = "Ready" ∨ verdict = "Partially Ready" then
        "verdict-pill verdict-pill--good"
      else "verdict-pill verdict-pill--poor"
    verdictText := if verdict = "" then "—" else verdict
    llmReadyText := if final_score.jsGe 60 then "Yes" else "No"
    overallPillText := jsToString (es.overall_llm_readiness_score.getD (.val 0))
    fanoutPillText := jsToFixed1 coverage_score
    eeatPillText := jsToString eeat_score
    scoreBars := renderScoreRows scoreRows }

/-! ## The FAQ region of `renderBlocks` (script.js lines 481–506). -/

/-- The dynamic fragments of the FAQ container's innerHTML: the list
body (or the empty-state paragraph) and the score meta-line. -/
structure FaqView where
  body : String
  scoreLine : String
deriving Repr, DecidableEq

/-- The `faqBlockEl` branch of `renderBlocks(summary, defs, faq, canon)`:
`recFaqs = Array.isArray(faq.recommended_faqs) ? ... : []`,
`score = typeof faq.score === "number" ? faq.score : 0`. -/
def renderFaqRegion (faq : Option FaqBlock) : FaqView :=
  let recFaqs := (faq.bind fun f => f.recommended_faqs).getD []
  let score := (faq.bind fun f => f.score).getD (.val 0)
  { body :=
      if recFaqs ≠ [] then
        "<ul class=\"list\">"
          ++ String.join (recFaqs.map fun f =>
              "<li><strong>Q:</strong> " ++ f.q
                ++ "<br/><strong>A:</strong> " ++ f.a ++ "</li>")
          ++ "</ul>"
      else "<p>No FAQ suggestions generated.</p>"
    scoreLine := "FAQ score: " ++ jsToString score ++ "/10" }

/-! ## `analyzeUrl` (script.js lines 45–77) and `renderResults`
(lines 79–109), as a state transformer over the page state.  The
single awaited network interaction is abstracted as a `FetchOutcome`
argument. -/

/-- The page state `analyzeUrl` reads and writes: status line, loader
visibility, analyze-button state, a count of fetches issued, and the
rendered regions the verified properties concern.  (`renderLlmView`
and the summary/definitions/canonical branches of `renderBlocks` are
not modelled: no verified property concerns them.) -/
structure AppState where
  statusMessage : String := ""
  statusIsError : Bool := false
  loaderHidden : Bool := true
  btnDisabled : Bool := false
  btnText : String := "Run analysis"
  requestsSent : Nat := 0
  arc : ArcDom := {}
  evalView : Option EvalView := none
  faqView : Option FaqView := none
deriving Repr, DecidableEq

/-- `setLoading(isLoading)` (script.js lines 26–37). -/
def setLoading (isLoading : Bool) (s : AppState) : AppState :=
  if isLoading then
    { s with loaderHidden := false, btnDisabled := true, btnText := "Analyzing…" }
  else
    { s with loaderHidden := true, btnDisabled := false, btnText := "Run analysis" }

/-- `setStatus(message, isError)` (script.js lines 39–43); the error
colour is modelled as the `statusIsError` flag. -/
def setStatus (message : String) (isError : Bool) (s : AppState) : AppState :=
  { s with statusMessage := message, statusIsError := isError }

/-- `renderResults(data)` (script.js lines 79–109): no-op on a falsy
document, else dispatch to the region renderers. -/
def renderResults (data : Option AnalysisResult) (s : AppState) : AppState :=
  match data with
  | none => s
  | some d =>
    { s with
      arc := renderArcRank d.score_matrix d.clarity_readability d.faq_block
        d.fanout_query_analysis s.arc
      evalView := some (renderEvaluation
        { page_metadata := d.page_metadata
          executive_summary := d.executive_summary
          score_matrix := d.score_matrix
          fanout_query_analysis := d.fanout_query_analysis
          clarity_readability := d.clarity_readability
          eeat_block := d.eeat_block
          fix_roadmap := d.fix_roadmap })
      faqView := some (renderFaqRegion d.faq_block) }

/-- How the awaited `fetch`/`response.json()` interaction resolves:
the fetch itself rejects; a non-2xx response arrives (whose error body
is `none` when it fails to parse as JSON, else carries the optional
string `detail` field); a 2xx response arrives whose body fails to
parse; or a 2xx response arrives with a parsed document (possibly
`null`). -/
inductive FetchOutcome where
  | networkFailure (msg : String)
  | httpError (status : Nat) (body : Option (Option String))
  | okInvalidJson (msg : String)
  | okJson (data : Option AnalysisResult)
deriving Repr, DecidableEq

/-- The message of the `Error` thrown on a non-2xx response
(script.js line 65): `err.detail || "Request failed: " + status`, where
`err` is the parsed error body or `{}` when parsing failed.  A missing
or empty (falsy) `detail` selects the synthesised message. -/
def throwMessage (status : Nat) (body : Option (Option String)) : String :=
  let fallback := "Request failed: " ++ Nat.repr status
  match body with
  | some (some d) => if d = "" then fallback else d
  | _ => fallback

/-- `analyzeUrl()` (script.js lines 45–77).  `inputValue` is the text
of the URL input (`none` when the element is missing, giving `""`);
`outcome` is how the awaited network interaction resolves. -/
def analyzeUrl (inputValue : Option String) (outcome : FetchOutcome)
    (s : AppState) : AppState :=
  let url := jsTrim (inputValue.getD "")
  if url = "" then
    setStatus "Enter a full page URL to analyze." true s
  else
    let s1 := setStatus "Sending page to LLM engine…" false s
    let s2 := setLoading true s1
    let s3 := { s2 with requestsSent := s2.requestsSent + 1 }
    match outcome with
    | .okJson data =>
      let s4 := renderResults data s3
      let s5 := setStatus "Analysis complete." false s4
      setLoading false s5
    | .okInvalidJson m =>
      let s4 := setStatus (if m = "" then "Something went wrong." else m) true s3
      setLoading false s4
    | .httpError status body =>
      let m := throwMessage status body
      let s4 := setStatus (if m = "" then "Something went wrong." else m) true s3
      setLoading false s4
    | .networkFailure m =>
      let s4 := setStatus (if m = "" then "Something went wrong." else m) true s3
      setLoading false s4

/-! ## Version B (`backup/script.js`): the parts of its
`renderEvaluation` (lines 215–336) that the verified properties
concern — the verdict pill, the backend-boolean LLM-ready flag, and
the score bars (which include a `Canonical` row only when
`canonical_score` is a number). -/

namespace Backup

/-- `evaluation.scores` of the version-B schema.  The JS field
`structure` is embedded as `structureScore`. -/
structure Scores where
  intent_clarity : Option JsNum := none
  coverage : Option JsNum := none
  structureScore : Option JsNum := none
  definitions : Option JsNum := none
  answerability : Option JsNum := none
  trust : Option JsNum := none
  overall : Option JsNum := none
deriving Repr, DecidableEq

/-- The version-B `evaluation` object. -/
structure Evaluation where
  scores : Option Scores := none
  verdict : Option String := none
  issues : Option (List String) := none
  recommendations : Option (List String) := none
  priority_fixes : Option (List String) := none
  canonical_score : Option JsNum := none
  canonical_issues : Option (List String) := none
  canonical_recommendations : Option (List String) := none
  llm_ready : Option Bool := none
deriving Repr, DecidableEq

/-- The dynamic fragments of the version-B evaluation card. -/
structure EvalView where
  verdictClass : String
  verdictText : String
  llmReadyText : String
  overallPillText : String
  scoreBars : List ScoreBar
deriving Repr, DecidableEq

/-- The body of version-B `renderEvaluation(ev)` after its
`if (!ev || !evaluationContent) return` guard. -/
def renderEvaluationCore (ev : Evaluation) : EvalView :=
  let scores := ev.scores.getD {}
  let verdict := ev.verdict
  let overall := scores.overall.getD (.val 0)
  let scoreRows : List (String × Option JsNum × String) :=
    [("Intent clarity", some (scores.intent_clarity.getD (.val 0)),
        "How clearly the page expresses its purpose and main topic."),
     ("Coverage", some (scores.coverage.getD (.val 0)),
        "How completely the page covers the topic and related subtopics."),
     ("Structure", some (scores.structureScore.getD (.val 0)),
        "How well the headings, sections, and layout support AI parsing."),
     ("Definitions", some (scores.definitions.getD (.val 0)),
        "Whether key concepts and entities are clearly defined for AI."),
     ("Answerability", some (scores.answerability.getD (.val 0)),
        "How well the page answers concrete questions users ask."),
     ("Trust", some (scores.trust.getD (.val 0)),
        "Signals of expertise, accuracy, and reliability."),
     ("Canonical", ev.canonical_score,
        "Internal + external resources that help AI place this page in context.")]
  { verdictClass :=
      if verdict = some "excellent" ∨ verdict = some "good" then
        "verdict-pill verdict-pill--good"
      else "verdict-pill verdict-pill--poor"
    verdictText :=
      match verdict with
      | some v => if v = "" then "—" else v
      | none => "—"
    llmReadyText := if ev.llm_ready.getD false then "Yes" else "No"
    overallPillText := jsToString overall
    scoreBars := renderScoreRows scoreRows }

/-- Version-B `renderEvaluation(ev)` with its falsy-argument guard:
`none` models the early return (no update to the card). -/
def renderEvaluationB (ev : Option Evaluation) : Option EvalView :=
  ev.map renderEvaluationCore

end Backup

/-! ## Specification-side definitions and concrete example documents. -/

/-- Modelled from the spec's words: `clamp(v,lo,hi)`, the value `v`
bounded into the interval `[lo,hi]`. -/
def specClamp (v lo hi : ℚ) : ℚ := max lo (min hi v)

/-- The document of testable property 6 exactly as the specification
pins it: `score_matrix.final_score = 82`,
`clarity_readability.score = 7.3`, `faq_block.recommended_faqs = []`,
nothing else. -/
def specExampleResult : AnalysisResult :=
  { score_matrix := some { final_score := some (.val 82) }
    clarity_readability := some { score := some (.val (73 / 10)) }
    faq_block := some { recommended_faqs := some [] } }

/-- The specification's example document extended with
`score_matrix.clarity = 7.3`, the field that actually drives the
"Clarity / readability" bar of the evaluation card. -/
def specExampleResultWithClarity : AnalysisResult :=
  { score_matrix := some { final_score := some (.val 82), clarity := some (.val (73 / 10)) }
    clarity_readability := some { score := some (.val (73 / 10)) }
    faq_block := some { recommended_faqs := some [] } }

end QueryArc

namespace QueryArc

/-! ## Helper lemmas. -/

/-- The synthesised transport-error message is never the empty string. -/
theorem requestFailed_ne_empty (t : String) : ("Request failed: " ++ t) ≠ "" := by
  intro h
  have hlen := congrArg String.length h
  rw [String.length_append] at hlen
  have h16 : "Request failed: ".length = 16 := rfl
  have h0 : "".length = 0 := rfl
  rw [h16, h0] at hlen
  omega

/-- The thrown error message of a non-2xx response is never empty, so
the `err.message || "Something went wrong."` fallback in the catch
clause never fires for it. -/
theorem throwMessage_ne_empty (status : Nat) (body : Option (Option String)) :
    throwMessage status body ≠ "" := by
  unfold throwMessage
  rcases body with _ | b
  · exact requestFailed_ne_empty _
  · rcases b with _ | d
    · exact requestFailed_ne_empty _
    · by_cases hd : d = "" <;> simp [hd]
      exact requestFailed_ne_empty _

/-- Every bar produced by the score-rows loop has the width the row
lambda computes from its own value. -/
theorem mem_renderScoreRows_width {rows : List (String × Option JsNum × String)}
    {b : ScoreBar} (hb : b ∈ renderScoreRows rows) :
    b.widthPct
      = JsNum.jsMul (JsNum.jsMin (.val 10) (JsNum.jsMax (.val 0) b.value)) (.val 10) := by
  unfold renderScoreRows at hb
  rw [List.mem_filterMap] at hb
  obtain ⟨r, _, hr⟩ := hb
  rcases r with ⟨l, ov, t⟩
  rcases ov with _ | v
  · simp at hr
  · simp only [Option.some.injEq] at hr
    subst hr
    rfl

/-- The code's `Math.min(10, Math.max(0, v))` agrees with the
specification's `clamp(v,0,10)`. -/
theorem min_max_eq_specClamp (v : ℚ) : min 10 (max 0 v) = specClamp v 0 10 := by
  unfold specClamp
  rw [max_min_distrib_left, max_eq_right (by norm_num : (0 : ℚ) ≤ 10)]

/-! ## The claims. -/

/-- C1: for every input URL that is empty or all-whitespace after
trimming, `analyzeUrl` issues no network request (the fetch counter is
unchanged) and sets the inline validation message, whatever the
network would have answered. -/
theorem analyzeUrl_blank_input_no_request (inputValue : Option String)
    (outcome : FetchOutcome) (s : AppState)
    (h : jsTrim (inputValue.getD "") = "") :
    (analyzeUrl inputValue outcome s).requestsSent = s.requestsSent ∧
    (analyzeUrl inputValue outcome s).statusMessage
      = "Enter a full page URL to analyze." ∧
    (analyzeUrl inputValue outcome s).statusIsError = true := by
  refine ⟨?_, ?_, ?_⟩ <;> simp [analyzeUrl, setStatus, h]

/-- Witness for C1: the all-whitespace input `"   "` with a would-be
successful response. -/
theorem analyzeUrl_blank_input_no_request_witness :
    (analyzeUrl (some "   ") (.okJson none) {}).requestsSent
        = ({} : AppState).requestsSent ∧
    (analyzeUrl (some "   ") (.okJson none) {}).statusMessage
        = "Enter a full page URL to analyze." ∧
    (analyzeUrl (some "   ") (.okJson none) {}).statusIsError = true :=
  analyzeUrl_blank_input_no_request (some "   ") (.okJson none) {} (by decide)

/-- C8: for every submission with a non-empty (after trimming) URL and
every way the network interaction can end — rendered result, transport
failure, non-2xx response, or a body that throws during parsing — the
`finally` clause leaves the loader hidden and the analyze button
re-enabled with its idle label, so resubmission is possible. -/
theorem analyzeUrl_always_clears_loading (inputValue : Option String)
    (outcome : FetchOutcome) (s : AppState)
    (h : jsTrim (inputValue.getD "") ≠ "") :
    (analyzeUrl inputValue outcome s).loaderHidden = true ∧
    (analyzeUrl inputValue outcome s).btnDisabled = false ∧
    (analyzeUrl inputValue outcome s).btnText = "Run analysis" := by
  cases outcome <;>
    refine ⟨?_, ?_, ?_⟩ <;> simp [analyzeUrl, setStatus, setLoading, h]

/-- Witness for C8: a non-empty URL with a network-level failure. -/
theorem analyzeUrl_always_clears_loading_witness :
    (analyzeUrl (some "https://example.com") (.networkFailure "boom") {}).loaderHidden
        = true ∧
    (analyzeUrl (some "https://example.com") (.networkFailure "boom") {}).btnDisabled
        = false ∧
    (analyzeUrl (some "https://example.com") (.networkFailure "boom") {}).btnText
        = "Run analysis" :=
  analyzeUrl_always_clears_loading (some "https://example.com")
    (.networkFailure "boom") {} (by decide)

/-- Counterexample to C9 as stated: the claim quantifies over every
`AnalysisResult` with a zero sub-score, but when `score_matrix` is
absent the early return of `renderArcRank` leaves the AIO element's
previous content in place even though `clarity_readability.score` is
present and exactly `0` — here a stale `"5.0"` survives instead of the
claimed `"—"`. -/
theorem renderArcRank_zero_subscore_stale_counterexample :
    (renderResults
        (some { clarity_readability := some { score := some (JsNum.val 0) } })
        { arc := { aioText := "5.0" } }).arc.aioText = "5.0" ∧
    "5.0" ≠ "—" := ⟨rfl, by decide⟩

/-- C9 as amended: in a result whose `score_matrix` is present, a
sub-score that is present and exactly `0` is rendered as `"—"`, exactly
like an absent one, because `0` is falsy in the
`aio ? aio.toFixed(1) : "—"` template of `renderArcRank`; this holds
for `clarity_readability.score`, `faq_block.score` and
`fanout_query_analysis.coverage_score` alike.  (When `score_matrix` is
absent the elements keep their previous content instead — see the
counterexample and C10.) -/
theorem renderArcRank_zero_subscore_dash (sm : ScoreMatrix)
    (clarityBlock : Option ClarityBlock) (faqBlock : Option FaqBlock)
    (fanoutBlock : Option FanoutBlock) (dom : ArcDom) :
    ((clarityBlock.bind fun c => c.score) = some (JsNum.val 0) →
      (renderArcRank (some sm) clarityBlock faqBlock fanoutBlock dom).aioText = "—") ∧
    ((faqBlock.bind fun f => f.score) = some (JsNum.val 0) →
      (renderArcRank (some sm) clarityBlock faqBlock fanoutBlock dom).aeoText = "—") ∧
    ((fanoutBlock.bind fun f => f.coverage_score) = some (JsNum.val 0) →
      (renderArcRank (some sm) clarityBlock faqBlock fanoutBlock dom).geoText = "—") := by
  refine ⟨?_, ?_, ?_⟩ <;> intro h <;> simp [renderArcRank, h, JsNum.truthy]

/-- Witness for the amended C9: all three sub-scores present and equal
to zero, with `score_matrix` present. -/
theorem renderArcRank_zero_subscore_dash_witness :
    (renderArcRank (some {}) (some { score := some (JsNum.val 0) })
        (some { score := some (JsNum.val 0) })
        (some { coverage_score := some (JsNum.val 0) }) {}).aioText = "—" ∧
    (renderArcRank (some {}) (some { score := some (JsNum.val 0) })
        (some { score := some (JsNum.val 0) })
        (some { coverage_score := some (JsNum.val 0) }) {}).aeoText = "—" ∧
    (renderArcRank (some {}) (some { score := some (JsNum.val 0) })
        (some { score := some (JsNum.val 0) })
        (some { coverage_score := some (JsNum.val 0) }) {}).geoText = "—" := by
  have h := renderArcRank_zero_subscore_dash {} (some { score := some (JsNum.val 0) })
    (some { score := some (JsNum.val 0) })
    (some { coverage_score := some (JsNum.val 0) }) {}
  exact ⟨h.1 (by decide), h.2.1 (by decide), h.2.2 (by decide)⟩

/-- C10: when `score_matrix` is absent, `renderArcRank` returns before
touching the DOM; the overall-score and AIO/AEO/GEO elements keep
whatever content they previously held. -/
theorem renderArcRank_absent_score_matrix_noop (clarityBlock : Option ClarityBlock)
    (faqBlock : Option FaqBlock) (fanoutBlock : Option FanoutBlock) (dom : ArcDom) :
    renderArcRank none clarityBlock faqBlock fanoutBlock dom = dom := rfl

/-- Counterexample to C2 as stated: when `score_matrix` itself is
absent, `renderResults` leaves the score header untouched rather than
showing `"0"` or `"—"` — here it keeps a stale `"73"` from an earlier
render. -/
theorem renderResults_absent_score_matrix_stale_header :
    (renderResults (some { score_matrix := none })
        { arc := { arcScoreText := "73" } }).arc.arcScoreText = "73" ∧
    ¬((renderResults (some { score_matrix := none })
        { arc := { arcScoreText := "73" } }).arc.arcScoreText = "0" ∨
      (renderResults (some { score_matrix := none })
        { arc := { arcScoreText := "73" } }).arc.arcScoreText = "—") := by
  exact ⟨rfl, by decide⟩

/-- C2 as amended: in a result whose `score_matrix` is present, each
missing numeric field defaults independently of the others — a missing
`final_score` displays `"0"`, and a missing `clarity_readability.score`
/ `faq_block.score` / `fanout_query_analysis.coverage_score` displays
`"—"` — never `"NaN"`, and the renderer (a total function) cannot
throw.  When `score_matrix` itself is absent the elements are left
unchanged instead (see the counterexample and C10). -/
theorem renderArcRank_missing_fields_default_display (sm : ScoreMatrix)
    (clarityBlock : Option ClarityBlock) (faqBlock : Option FaqBlock)
    (fanoutBlock : Option FanoutBlock) (dom : ArcDom) :
    (sm.final_score = none →
      (renderArcRank (some sm) clarityBlock faqBlock fanoutBlock dom).arcScoreText
        = "0") ∧
    ((clarityBlock.bind fun c => c.score) = none →
      (renderArcRank (some sm) clarityBlock faqBlock fanoutBlock dom).aioText = "—") ∧
    ((faqBlock.bind fun f => f.score) = none →
      (renderArcRank (some sm) clarityBlock faqBlock fanoutBlock dom).aeoText = "—") ∧
    ((fanoutBlock.bind fun f => f.coverage_score) = none →
      (renderArcRank (some sm) clarityBlock faqBlock fanoutBlock dom).geoText = "—") := by
  refine ⟨?_, ?_, ?_, ?_⟩ <;> intro h <;>
    simp [renderArcRank, h, JsNum.truthy, JsNum.isNaN,
      jsToString, ratToString, ratIntPart, ratFracDigits]
  rfl

/-- Witness for the amended C2: a `score_matrix` with `final_score`
missing while `clarity` is present, a missing
`clarity_readability.score` inside a present block, and wholly absent
`faq_block` / `fanout_query_analysis` — each conjunct discharged
independently. -/
theorem renderArcRank_missing_fields_default_display_witness :
    (renderArcRank (some { clarity := some (JsNum.val 5) })
        (some { score := none }) none none {}).arcScoreText = "0" ∧
    (renderArcRank (some { clarity := some (JsNum.val 5) })
        (some { score := none }) none none {}).aioText = "—" ∧
    (renderArcRank (some { clarity := some (JsNum.val 5) })
        (some { score := none }) none none {}).aeoText = "—" ∧
    (renderArcRank (some { clarity := some (JsNum.val 5) })
        (some { score := none }) none none {}).geoText = "—" := by
  have h := renderArcRank_missing_fields_default_display
    { clarity := some (JsNum.val 5) } (some { score := none }) none none {}
  exact ⟨h.1 rfl, h.2.1 rfl, h.2.2.1 rfl, h.2.2.2 rfl⟩

/-- C3: every score bar rendered in the evaluation card — by either
script version — whose underlying value is a real number `v` has fill
width exactly `clamp(v,0,10) * 10` percent, also for `v` outside
`[0,10]`. -/
theorem scoreBars_width_eq_clamp (ctx : EvalCtx) (ev : Backup.Evaluation)
    (b b2 : ScoreBar) (v w : ℚ) :
    (b ∈ (renderEvaluation ctx).scoreBars → b.value = JsNum.val v →
      b.widthPct = JsNum.val (specClamp v 0 10 * 10)) ∧
    (b2 ∈ (Backup.renderEvaluationCore ev).scoreBars → b2.value = JsNum.val w →
      b2.widthPct = JsNum.val (specClamp w 0 10 * 10)) := by
  constructor
  · intro hb hv
    have hw := mem_renderScoreRows_width hb
    rw [hw, hv]
    show JsNum.val (min 10 (max 0 v) * 10) = _
    rw [min_max_eq_specClamp]
  · intro hb hv
    have hw := mem_renderScoreRows_width hb
    rw [hw, hv]
    show JsNum.val (min 10 (max 0 w) * 10) = _
    rw [min_max_eq_specClamp]

/-- Witness for C3: the version-A `Summary block` bar at value 12
(clamped to a 100% fill) and the version-B `Coverage` bar at value
`-3` (clamped to a 0% fill). -/
theorem scoreBars_width_eq_clamp_witness :
    (scoreBarRow "Summary block" (JsNum.val 12)
        "Quality of the LLM summary block for quick retrieval.").widthPct
      = JsNum.val (specClamp 12 0 10 * 10) ∧
    (scoreBarRow "Coverage" (JsNum.val (-3))
        "How completely the page covers the topic and related subtopics.").widthPct
      = JsNum.val (specClamp (-3) 0 10 * 10) := by
  constructor
  · exact (scoreBars_width_eq_clamp
      { score_matrix := some { summary_block := some (JsNum.val 12) } }
      { scores := some { coverage := some (JsNum.val (-3)) } }
      (scoreBarRow "Summary block" (JsNum.val 12)
        "Quality of the LLM summary block for quick retrieval.")
      (scoreBarRow "Coverage" (JsNum.val (-3))
        "How completely the page covers the topic and related subtopics.")
      12 (-3)).1 (by simp [renderEvaluation, renderScoreRows]) rfl
  · exact (scoreBars_width_eq_clamp
      { score_matrix := some { summary_block := some (JsNum.val 12) } }
      { scores := some { coverage := some (JsNum.val (-3)) } }
      (scoreBarRow "Summary block" (JsNum.val 12)
        "Quality of the LLM summary block for quick retrieval.")
      (scoreBarRow "Coverage" (JsNum.val (-3))
        "How completely the page covers the topic and related subtopics.")
      12 (-3)).2 (by simp [Backup.renderEvaluationCore, renderScoreRows]) rfl

/-- C4: in both script versions the verdict maps to the visual class
through a fixed positive enumeration (`"Ready"`/`"Partially Ready"` in
version A, `"excellent"`/`"good"` in version B): a verdict in the set
gets the positive pill class, any other string the negative class, and
an absent verdict the negative class with `"—"` as displayed text. -/
theorem verdict_to_style_mapping :
    (∀ (ctx : EvalCtx) (es : ExecSummary) (v : String),
      ctx.executive_summary = some es → es.verdict = some v →
      ((v = "Ready" ∨ v = "Partially Ready") →
        (renderEvaluation ctx).verdictClass = "verdict-pill verdict-pill--good") ∧
      (v ≠ "Ready" → v ≠ "Partially Ready" →
        (renderEvaluation ctx).verdictClass = "verdict-pill verdict-pill--poor")) ∧
    (∀ ctx : EvalCtx,
      (ctx.executive_summary.bind fun e => e.verdict) = none →
      (renderEvaluation ctx).verdictClass = "verdict-pill verdict-pill--poor" ∧
      (renderEvaluation ctx).verdictText = "—") ∧
    (∀ (ev : Backup.Evaluation) (v : String),
      ev.verdict = some v →
      ((v = "excellent" ∨ v = "good") →
        (Backup.renderEvaluationCore ev).verdictClass
          = "verdict-pill verdict-pill--good") ∧
      (v ≠ "excellent" → v ≠ "good" →
        (Backup.renderEvaluationCore ev).verdictClass
          = "verdict-pill verdict-pill--poor")) ∧
    (∀ ev : Backup.Evaluation, ev.verdict = none →
      (Backup.renderEvaluationCore ev).verdictClass
        = "verdict-pill verdict-pill--poor" ∧
      (Backup.renderEvaluationCore ev).verdictText = "—") := by
  refine ⟨?_, ?_, ?_, ?_⟩
  · intro ctx es v h1 h2
    constructor
    · intro hv
      simp [renderEvaluation, h1, h2, hv]
    · intro hv1 hv2
      simp [renderEvaluation, h1, h2, hv1, hv2]
  · intro ctx h
    rcases hes : ctx.executive_summary with _ | es
    · simp [renderEvaluation, hes]
    · rw [hes] at h
      simp only [Option.bind_eq_bind, Option.some_bind] at h
      simp [renderEvaluation, hes, h]
  · intro ev v h
    constructor
    · intro hv
      simp [Backup.renderEvaluationCore, h, hv]
    · intro hv1 hv2
      simp [Backup.renderEvaluationCore, h, hv1, hv2]
  · intro ev h
    simp [Backup.renderEvaluationCore, h]

/-- Witness for C4: a positive and an absent verdict in version A, and
a positive and an absent verdict in version B. -/
theorem verdict_to_style_mapping_witness :
    (renderEvaluation { executive_summary := some { verdict := some "Partially Ready" } }).verdictClass
      = "verdict-pill verdict-pill--good" ∧
    (renderEvaluation {}).verdictText = "—" ∧
    (Backup.renderEvaluationCore { verdict := some "weak" }).verdictClass
      = "verdict-pill verdict-pill--poor" ∧
    (Backup.renderEvaluationCore {}).verdictText = "—" := by
  refine ⟨?_, ?_, ?_, ?_⟩
  · exact ((verdict_to_style_mapping.1
      { executive_summary := some { verdict := some "Partially Ready" } }
      { verdict := some "Partially Ready" } "Partially Ready" rfl rfl).1
      (Or.inr rfl))
  · exact (verdict_to_style_mapping.2.1 {} rfl).2
  · exact ((verdict_to_style_mapping.2.2.1 { verdict := some "weak" } "weak" rfl).2
      (by decide) (by decide))
  · exact (verdict_to_style_mapping.2.2.2 {} rfl).2

/-- Counterexample to C5 as stated: a 404 whose JSON body does contain
a `detail` field, but with the empty string as its value; the displayed
message is the synthesized `"Request failed: 404"`, not that detail
string, because `err.detail || ...` treats the empty string as falsy. -/
theorem analyzeUrl_empty_detail_counterexample :
    (analyzeUrl (some "https://example.com")
        (.httpError 404 (some (some ""))) {}).statusMessage
      = "Request failed: 404" ∧
    "Request failed: 404" ≠ "" := ⟨rfl, by decide⟩

/-- C5 as amended: on a non-2xx response, a JSON body with a non-empty
string `detail` displays exactly that detail string; an absent body,
an unparsable body, a body without `detail`, or an empty `detail`
displays the synthesized `"Request failed: <status>"`; in every case
the error is surfaced as an error-styled status message, never
dropped. -/
theorem analyzeUrl_http_error_message (inputValue : Option String)
    (s : AppState) (status : Nat) (body : Option (Option String)) (d : String)
    (hurl : jsTrim (inputValue.getD "") ≠ "") :
    (body = some (some d) → d ≠ "" →
      (analyzeUrl inputValue (.httpError status body) s).statusMessage = d) ∧
    ((body = none ∨ body = some none ∨ body = some (some "")) →
      (analyzeUrl inputValue (.httpError status body) s).statusMessage
        = "Request failed: " ++ Nat.repr status) ∧
    (analyzeUrl inputValue (.httpError status body) s).statusIsError = true := by
  have hne := throwMessage_ne_empty status body
  refine ⟨?_, ?_, ?_⟩
  · intro hb hd
    simp [analyzeUrl, hurl, setStatus, setLoading, hne, throwMessage, hb, hd]
  · intro hb
    rcases hb with hb | hb | hb <;>
      simp [analyzeUrl, hurl, setStatus, setLoading, hne, throwMessage, hb,
        requestFailed_ne_empty]
  · simp [analyzeUrl, hurl, setStatus, setLoading, hne]

/-- Witness for the amended C5: a 404 with `detail = "bad url"`
(conjunct one), a 500 with an unparsable body (conjunct two), and the
error styling of the latter (conjunct three). -/
theorem analyzeUrl_http_error_message_witness :
    (analyzeUrl (some "https://example.com")
        (.httpError 404 (some (some "bad url"))) {}).statusMessage = "bad url" ∧
    (analyzeUrl (some "https://example.com")
        (.httpError 500 none) {}).statusMessage = "Request failed: 500" ∧
    (analyzeUrl (some "https://example.com")
        (.httpError 500 none) {}).statusIsError = true := by
  refine ⟨?_, ?_, ?_⟩
  · exact (analyzeUrl_http_error_message (some "https://example.com") {} 404
      (some (some "bad url")) "bad url" (by decide)).1 rfl (by decide)
  · exact (analyzeUrl_http_error_message (some "https://example.com") {} 500
      none "" (by decide)).2.1 (Or.inl rfl)
  · exact (analyzeUrl_http_error_message (some "https://example.com") {} 500
      none "" (by decide)).2.2

/-- C6: the LLM-ready flag is independent of the verdict in both
versions; version A shows `"Yes"` exactly when `score_matrix.final_score`
is a number `≥ 60` (on the 0–100 scale), and version B shows `"Yes"`
exactly when the backend boolean `llm_ready` is `true`. -/
theorem llm_ready_flag_mapping :
    (∀ (ctx : EvalCtx) (sm : ScoreMatrix) (q : ℚ),
      ctx.score_matrix = some sm → sm.final_score = some (JsNum.val q) →
      ((renderEvaluation ctx).llmReadyText = "Yes" ↔ 60 ≤ q)) ∧
    (∀ ctx ctx2 : EvalCtx, ctx.score_matrix = ctx2.score_matrix →
      (renderEvaluation ctx).llmReadyText = (renderEvaluation ctx2).llmReadyText) ∧
    (∀ ev : Backup.Evaluation,
      ((Backup.renderEvaluationCore ev).llmReadyText = "Yes"
        ↔ ev.llm_ready = some true)) ∧
    (∀ (ev : Backup.Evaluation) (v : Option String),
      (Backup.renderEvaluationCore { ev with verdict := v }).llmReadyText
        = (Backup.renderEvaluationCore ev).llmReadyText) := by
  refine ⟨?_, ?_, ?_, ?_⟩
  · intro ctx sm q h1 h2
    by_cases hq : 60 ≤ q <;>
      simp [renderEvaluation, h1, h2, JsNum.jsGe, hq]
  · intro ctx ctx2 h
    simp [renderEvaluation, h]
  · intro ev
    rcases h : ev.llm_ready with _ | b
    · simp [Backup.renderEvaluationCore, h]
    · cases b <;> simp [Backup.renderEvaluationCore, h]
  · intro ev v
    rfl

/-- Witness for C6: version A at the threshold score 60, the
independence parts at concrete contexts differing only in the verdict,
and version B with `llm_ready = true`. -/
theorem llm_ready_flag_mapping_witness :
    ((renderEvaluation
        { score_matrix := some { final_score := some (JsNum.val 60) } }).llmReadyText
      = "Yes" ↔ (60 : ℚ) ≤ 60) ∧
    (renderEvaluation
        { executive_summary := some { verdict := some "Ready" }
          score_matrix := some { final_score := some (JsNum.val 10) } }).llmReadyText
      = (renderEvaluation
        { executive_summary := some { verdict := some "Poor" }
          score_matrix := some { final_score := some (JsNum.val 10) } }).llmReadyText ∧
    ((Backup.renderEvaluationCore { llm_ready := some true }).llmReadyText = "Yes"
      ↔ ({ llm_ready := some true } : Backup.Evaluation).llm_ready = some true) ∧
    (Backup.renderEvaluationCore
        { ({ llm_ready := some false } : Backup.Evaluation) with
          verdict := some "excellent" }).llmReadyText
      = (Backup.renderEvaluationCore { llm_ready := some false }).llmReadyText := by
  refine ⟨?_, ?_, ?_, ?_⟩
  · exact llm_ready_flag_mapping.1
      { score_matrix := some { final_score := some (JsNum.val 60) } }
      { final_score := some (JsNum.val 60) } 60 rfl rfl
  · exact llm_ready_flag_mapping.2.1
      { executive_summary := some { verdict := some "Ready" }
        score_matrix := some { final_score := some (JsNum.val 10) } }
      { executive_summary := some { verdict := some "Poor" }
        score_matrix := some { final_score := some (JsNum.val 10) } } rfl
  · exact llm_ready_flag_mapping.2.2.1 { llm_ready := some true }
  · exact llm_ready_flag_mapping.2.2.2 { llm_ready := some false }
      (some "excellent")

/-- Counterexample to C7 as stated: rendering the result the
specification pins (`final_score = 82`, `clarity_readability.score =
7.3`, `recommended_faqs = []`, nothing else) shows `"7.3"` as the AIO
value, but no bar renders at 73% — all eight evaluation bars are at 0%,
because the "Clarity / readability" bar is driven by
`score_matrix.clarity`, not by `clarity_readability.score`. -/
theorem clarity_bar_counterexample :
    (renderResults (some specExampleResult) {}).arc.aioText = "7.3" ∧
    ((renderResults (some specExampleResult) {}).evalView.map
        fun v => v.scoreBars.map ScoreBar.widthPct)
      = some [JsNum.val 0, JsNum.val 0, JsNum.val 0, JsNum.val 0,
              JsNum.val 0, JsNum.val 0, JsNum.val 0, JsNum.val 0] ∧
    JsNum.val 0 ≠ JsNum.val 73 := by
  refine ⟨?_, ?_, ?_⟩ <;> with_unfolding_all decide

/-- C7 as amended: on the specification's concrete document extended
with `score_matrix.clarity = 7.3` (the field that drives the clarity
bar): the score header displays `"82"`, the AIO value displays `"7.3"`,
the "Clarity / readability" evaluation bar renders at 73% width with
value text `"7.3"`, and the FAQ region renders the empty-state text
"No FAQ suggestions generated." -/
theorem end_to_end_concrete_render :
    (renderResults (some specExampleResultWithClarity) {}).arc.arcScoreText = "82" ∧
    (renderResults (some specExampleResultWithClarity) {}).arc.aioText = "7.3" ∧
    ((renderResults (some specExampleResultWithClarity) {}).evalView.map
        fun v => v.scoreBars.map fun b => (b.label, b.widthPct, b.valueText))
      = some [("Summary block", JsNum.val 0, "0.0"),
              ("Definitions", JsNum.val 0, "0.0"),
              ("FAQ", JsNum.val 0, "0.0"),
              ("Fanout coverage", JsNum.val 0, "0.0"),
              ("Canonical resources", JsNum.val 0, "0.0"),
              ("Structure", JsNum.val 0, "0.0"),
              ("Clarity / readability", JsNum.val 73, "7.3"),
              ("EEAT", JsNum.val 0, "0.0")] ∧
    ((renderResults (some specExampleResultWithClarity) {}).faqView.map
        fun v => v.body)
      = some "<p>No FAQ suggestions generated.</p>" := by
  refine ⟨?_, ?_, ?_, ?_⟩ <;> with_unfolding_all decide

end QueryArc
